import Mathlib

/-!
Verification of the GaganYatra flight-booking frontend.

Shallow embedding of the React frontend sources:
* `BookingPage.jsx` (src/unnamed/part_004): passenger list management,
  locked price, seat selection, fare totals, payment payload.
* `FlightsPage.jsx`: seat-class options, price lookup, result sorting.
* `FlightSearchForm.jsx`: travel-class options of the home search form.
* `MyBookingsPage.jsx`: client-side cancellation update.
* `Navbar.jsx` (src/unnamed/part_007): public PNR-status lookup.

Monetary amounts are modelled with `ℚ` (exact arithmetic standing in for
JavaScript numbers).  Strings that only flow through the UI are kept as
`String`; the PNR input is modelled as `List Char` so that trimming and
case mapping can be reasoned about directly.
-/

namespace GY

/-- A passenger form entry of `BookingPage.jsx`: `{ passenger_name, age, gender }`.
The `age` field is a text-input value, hence a string. -/
structure Passenger where
  passenger_name : String
  age : String
  gender : String
deriving DecidableEq, Repr

/-- The empty passenger record pushed by `addPassenger`. -/
def newPassenger : Passenger := ⟨"", "", ""⟩

/-- A seat as delivered to `handleSeatSelect` by the `SeatSelector` component.
`surcharge` is the seat-selection surcharge (`seat.surcharge || 0` in the
source; the model keeps it as a plain rational). -/
structure Seat where
  id : Nat
  seat_number : String
  seat_position : String
  surcharge : ℚ
deriving DecidableEq, Repr

/-- The multiplier table of `BookingPage.jsx` lines 126-131. -/
def multipliers : List (String × ℚ) :=
  [("ECONOMY", 1.0), ("ECONOMY_FLEX", 1.2), ("BUSINESS", 1.8), ("FIRST", 2.5)]

/-- `basePrice * (multipliers[seatTier] || 1.0)` from `BookingPage.jsx` line 132. -/
def computedTierPrice (basePrice : ℚ) (seatTier : String) : ℚ :=
  basePrice * ((multipliers.lookup seatTier).getD 1.0)

/-- The locked price: the `price` URL parameter if present (non-zero),
otherwise computed once from the fetched flight data (lines 43 and 124-133). -/
def initLockedPrice (urlPrice basePrice : ℚ) (seatTier : String) : ℚ :=
  if urlPrice = 0 then computedTierPrice basePrice seatTier else urlPrice

/-- `Array.from({ length: passengersCount }, () => ({...}))` (lines 46-52). -/
def initPassengers (passengersCount : Nat) : List Passenger :=
  List.replicate passengersCount newPassenger

/-- The component state of `BookingPage.jsx` relevant to pricing and
passenger/seat management. -/
structure BookingState where
  lockedPrice : ℚ
  passengers : List Passenger
  selectedSeats : List Seat
  seatSurcharge : ℚ
  error : String
deriving DecidableEq, Repr

/-- Initial state of the booking page after mount and flight fetch
(`urlPrice`, `passengersCount`, `seatTier` come from the URL). -/
def initState (urlPrice basePrice : ℚ) (seatTier : String)
    (passengersCount : Nat) : BookingState :=
  { lockedPrice := initLockedPrice urlPrice basePrice seatTier
  , passengers := initPassengers passengersCount
  , selectedSeats := []
  , seatSurcharge := 0
  , error := "" }

/-- `addPassenger` (lines 59-69): refuse at nine passengers, otherwise append
an empty passenger and clear the seat selection. -/
def addPassenger (s : BookingState) : BookingState :=
  if 9 ≤ s.passengers.length then
    { s with error := "Maximum 9 passengers allowed per booking" }
  else
    { s with passengers := s.passengers ++ [newPassenger]
           , selectedSeats := []
           , seatSurcharge := 0
           , error := "" }

/-- `prev.filter((_, i) => i !== index)` (line 74). -/
def removeAtIdx (l : List Passenger) (index : Nat) : List Passenger :=
  (l.enum.filter (fun pi => pi.1 ≠ index)).map Prod.snd

/-- `removePassenger` (lines 72-79): keep at least one passenger; on removal
clear the seat selection. -/
def removePassenger (s : BookingState) (index : Nat) : BookingState :=
  if s.passengers.length ≤ 1 then s
  else
    { s with passengers := removeAtIdx s.passengers index
           , selectedSeats := []
           , seatSurcharge := 0
           , error := "" }

/-- `seats.reduce((sum, seat) => sum + (seat.surcharge || 0), 0)` (line 84). -/
def seatSurchargeTotal (seats : List Seat) : ℚ :=
  seats.foldl (fun sum seat => sum + seat.surcharge) 0

/-- `handleSeatSelect` (lines 82-86). -/
def handleSeatSelect (s : BookingState) (seats : List Seat) : BookingState :=
  { s with selectedSeats := seats
         , seatSurcharge := seatSurchargeTotal seats }

/-- `updated[index] = { ...updated[index], [field]: value }` (line 157). -/
def setField (p : Passenger) (field value : String) : Passenger :=
  if field = "passenger_name" then { p with passenger_name := value }
  else if field = "age" then { p with age := value }
  else if field = "gender" then { p with gender := value }
  else p

/-- `handlePassengerChange` (lines 154-160); the UI only ever calls it with an
index of an existing passenger, so an out-of-range index leaves the state
unchanged in the model. -/
def handlePassengerChange (s : BookingState) (index : Nat)
    (field value : String) : BookingState :=
  match s.passengers.get? index with
  | some p => { s with passengers := s.passengers.set index (setField p field value) }
  | none => s

/-- `tierPrice` (line 149). -/
def tierPrice (s : BookingState) : ℚ := s.lockedPrice

/-- `baseTotalPrice = tierPrice * passengers.length` (line 150). -/
def baseTotalPrice (s : BookingState) : ℚ :=
  tierPrice s * (s.passengers.length : ℚ)

/-- `totalPrice = baseTotalPrice + seatSurcharge` (line 151). -/
def totalPrice (s : BookingState) : ℚ :=
  baseTotalPrice s + s.seatSurcharge

/-- Step-2 validation (lines 197-203): one selected seat per passenger. -/
def validateStep2 (s : BookingState) : Bool :=
  s.selectedSeats.length == s.passengers.length

/-- The user interactions of the booking page that touch the modelled state. -/
inductive BookingEvent where
  | add : BookingEvent
  | remove (index : Nat) : BookingEvent
  | selectSeats (seats : List Seat) : BookingEvent
  | change (index : Nat) (field value : String) : BookingEvent
deriving DecidableEq, Repr

/-- One step of the booking-page state machine. -/
def applyEvent (s : BookingState) : BookingEvent → BookingState
  | .add => addPassenger s
  | .remove i => removePassenger s i
  | .selectSeats seats => handleSeatSelect s seats
  | .change i f v => handlePassengerChange s i f v

/-- A whole interaction history. -/
def applyEvents (s : BookingState) (evs : List BookingEvent) : BookingState :=
  evs.foldl applyEvent s

/-- The hold response used by `handleSubmit` (line 283). -/
structure HeldBooking where
  booking_reference : String
  total_fare : ℚ
  pnr : String
deriving DecidableEq, Repr

/-- The body of `POST /payments/` (lines 294-298). -/
structure PaymentPayload where
  booking_reference : String
  amount : ℚ
  method : String
deriving DecidableEq, Repr

/-- The frontend-to-backend payment method map (lines 287-292). -/
def paymentMethodMap : List (String × String) :=
  [("card", "Card"), ("upi", "UPI"), ("netbanking", "NetBanking"), ("wallet", "Wallet")]

/-- `paymentPayload` (lines 294-298): the submitted amount is exactly the
`total_fare` returned by the hold. -/
def mkPaymentPayload (booking : HeldBooking) (paymentMethod : String) : PaymentPayload :=
  { booking_reference := booking.booking_reference
  , amount := booking.total_fare
  , method := (paymentMethodMap.lookup paymentMethod).getD paymentMethod }

/-! ### FlightsPage.jsx: seat classes, prices, result ordering -/

/-- An entry of the `SEAT_CLASSES` constant of `FlightsPage.jsx` (lines 12-16). -/
structure SeatClassOption where
  value : String
  label : String
  short : String
deriving DecidableEq, Repr

/-- `SEAT_CLASSES` from `FlightsPage.jsx` lines 12-16. -/
def SEAT_CLASSES : List SeatClassOption :=
  [ ⟨"ECONOMY", "Economy", "ECO"⟩
  , ⟨"BUSINESS", "Business", "BUS"⟩
  , ⟨"FIRST", "First", "FST"⟩ ]

/-- The travel-class options of the home search form
(`FlightSearchForm.jsx` lines 186-189). -/
def travelClassOptions : List String :=
  ["ECONOMY", "ECONOMY_FLEX", "BUSINESS", "FIRST"]

/-- A flight summary as rendered by `FlightsPage.jsx`.  Timestamps are epoch
milliseconds; the fallback price fields use `0` for an absent (falsy) value,
mirroring the `||` chains of the source. -/
structure FlightSummary where
  id : Nat
  airline : String
  departure_time : Int
  arrival_time : Int
  price_map : List (String × ℚ)
  dynamic_price : ℚ
  current_price : ℚ
  base_price : ℚ
deriving DecidableEq, Repr

/-- JavaScript `a || b` on numbers: `b` when `a` is falsy (zero). -/
def orElseNum (a b : ℚ) : ℚ := if a = 0 then b else a

/-- `flight.dynamic_price || flight.current_price || flight.base_price || 0`. -/
def fallbackPrice (f : FlightSummary) : ℚ :=
  orElseNum f.dynamic_price (orElseNum f.current_price (orElseNum f.base_price 0))

/-- `getFlightPrice` (`FlightsPage.jsx` lines 126-131). -/
def getFlightPrice (f : FlightSummary) (tier : String) : ℚ :=
  match f.price_map.lookup tier with
  | some p => if p = 0 then fallbackPrice f else p
  | none => fallbackPrice f

/-- The numeric sort key of the comparator (`FlightsPage.jsx` lines 136-149):
price of the per-flight selected class, flight duration, departure time, or a
constant for an unknown sort key (comparator returns `0`). -/
def sortVal (sortBy : String) (classes : List (Nat × String))
    (f : FlightSummary) : ℚ :=
  if sortBy = "price" then getFlightPrice f ((classes.lookup f.id).getD "ECONOMY")
  else if sortBy = "duration" then ((f.arrival_time - f.departure_time : Int) : ℚ)
  else if sortBy = "departure" then (f.departure_time : ℚ)
  else 0

/-- The ordering induced by the comparator: `cmp(a, b) ≤ 0`. -/
def flightLE (sortBy : String) (classes : List (Nat × String))
    (a b : FlightSummary) : Prop :=
  sortVal sortBy classes a ≤ sortVal sortBy classes b

instance (sortBy : String) (classes : List (Nat × String)) :
    DecidableRel (flightLE sortBy classes) := fun a b =>
  inferInstanceAs (Decidable (sortVal sortBy classes a ≤ sortVal sortBy classes b))

instance (sortBy : String) (classes : List (Nat × String)) :
    IsTotal FlightSummary (flightLE sortBy classes) :=
  ⟨fun a b => le_total (sortVal sortBy classes a) (sortVal sortBy classes b)⟩

instance (sortBy : String) (classes : List (Nat × String)) :
    IsTrans FlightSummary (flightLE sortBy classes) :=
  ⟨fun _ _ _ hab hbc => le_trans hab hbc⟩

/-- The airline filter predicate (`FlightsPage.jsx` line 135). -/
def airlineFilter (filterAirline : String) (f : FlightSummary) : Bool :=
  filterAirline == "all" || f.airline == filterAirline

/-- `filteredFlights` (`FlightsPage.jsx` lines 134-149): filter by airline,
then sort with the comparator.  `Array.prototype.sort` is stable (ES2019), and
a stable sort under a total preorder is unique, so the stable
`List.insertionSort` computes the same list. -/
def filteredFlights (flights : List FlightSummary) (filterAirline : String)
    (sortBy : String) (classes : List (Nat × String)) : List FlightSummary :=
  List.insertionSort (flightLE sortBy classes)
    (flights.filter (airlineFilter filterAirline))

/-! ### MyBookingsPage.jsx: client-side cancellation -/

/-- A booking row as held in the `bookings` state of `MyBookingsPage.jsx`. -/
structure MyBooking where
  pnr : String
  status : String
  paid_amount : ℚ
  total_fare : ℚ
  booking_reference : String
  tickets : List String
deriving DecidableEq, Repr

/-- The state update of `handleCancelBooking` (`MyBookingsPage.jsx` lines
60-62): `prev.map(b => b.pnr === pnr ? { ...b, status: 'Cancelled' } : b)`. -/
def cancelBookingUpdate (pnr : String) (bookings : List MyBooking) :
    List MyBooking :=
  bookings.map (fun b => if b.pnr = pnr then { b with status := "Cancelled" } else b)

/-! ### Navbar.jsx (src/unnamed/part_007): public PNR-status lookup -/

/-- JavaScript `String.prototype.trim` on a list of characters: strip leading
and trailing whitespace. -/
def jsTrim (l : List Char) : List Char :=
  ((l.dropWhile Char.isWhitespace).reverse.dropWhile Char.isWhitespace).reverse

/-- The lower-to-upper table of the ASCII letters; the PNR alphabet is ASCII
alphanumeric, so this models `String.prototype.toUpperCase` on it. -/
def upperPairs : List (Char × Char) :=
  [ ('a', 'A'), ('b', 'B'), ('c', 'C'), ('d', 'D'), ('e', 'E'), ('f', 'F')
  , ('g', 'G'), ('h', 'H'), ('i', 'I'), ('j', 'J'), ('k', 'K'), ('l', 'L')
  , ('m', 'M'), ('n', 'N'), ('o', 'O'), ('p', 'P'), ('q', 'Q'), ('r', 'R')
  , ('s', 'S'), ('t', 'T'), ('u', 'U'), ('v', 'V'), ('w', 'W'), ('x', 'X')
  , ('y', 'Y'), ('z', 'Z') ]

/-- Uppercasing of one character (identity off the lowercase ASCII letters). -/
def jsToUpperChar (c : Char) : Char := (upperPairs.lookup c).getD c

/-- Lowercasing of one character (identity off the uppercase ASCII letters). -/
def jsToLowerChar (c : Char) : Char :=
  ((upperPairs.map (fun p => (p.2, p.1))).lookup c).getD c

/-- `String.prototype.toUpperCase` on a list of characters. -/
def jsToUpper (l : List Char) : List Char := l.map jsToUpperChar

/-- The lookup key sent by `handlePnrCheck` (`Navbar.jsx` lines 47-66):
`none` when `pnrInput.trim()` is falsy (the empty string), in which case no
request is issued; otherwise the path parameter
`pnrInput.trim().toUpperCase()`. -/
def pnrLookupKey (input : List Char) : Option (List Char) :=
  if jsTrim input = [] then none else some (jsToUpper (jsTrim input))

/-! ### Pricing engine (backend, modelled from the spec) -/

/-- Modelled from the spec: the backend pricing engine
(`backend/app/services/pricing_engine.py`) is not among the source files
under src/; only the README milestone notes (src/unnamed/part_010) describe
it.  Formula from spec section 4.1: the product of the base fare with the
inventory, time, demand and class factors, capped at ten times the base fare
and floored at the base fare. -/
def pricingEngineFare (baseFare invFactor timeFactor demandFactor classFactor : ℚ) : ℚ :=
  max (min (baseFare * invFactor * timeFactor * demandFactor * classFactor)
        (10 * baseFare)) baseFare

/-! ## Helper lemmas -/

/-- No user interaction of the booking page touches the locked price. -/
lemma lockedPrice_applyEvent (s : BookingState) (e : BookingEvent) :
    (applyEvent s e).lockedPrice = s.lockedPrice := by
  cases e with
  | add =>
      simp only [applyEvent, addPassenger]
      split <;> rfl
  | remove i =>
      simp only [applyEvent, removePassenger]
      split <;> rfl
  | selectSeats seats => rfl
  | change i f v =>
      simp only [applyEvent, handlePassengerChange]
      cases s.passengers.get? i <;> rfl

/-- The locked price is invariant over whole interaction histories. -/
lemma lockedPrice_applyEvents (evs : List BookingEvent) :
    ∀ s : BookingState, (applyEvents s evs).lockedPrice = s.lockedPrice := by
  induction evs with
  | nil => intro s; rfl
  | cons e evs ih =>
      intro s
      have h : applyEvents s (e :: evs) = applyEvents (applyEvent s e) evs := rfl
      rw [h, ih, lockedPrice_applyEvent]

/-- The `reduce` of `handleSeatSelect` computes the sum of the surcharges. -/
lemma foldl_surcharge (init : ℚ) (seats : List Seat) :
    seats.foldl (fun sum seat => sum + seat.surcharge) init
      = init + (seats.map Seat.surcharge).sum := by
  induction seats generalizing init with
  | nil => simp
  | cons a t ih => simp [ih, add_assoc]

lemma seatSurchargeTotal_eq_sum (seats : List Seat) :
    seatSurchargeTotal seats = (seats.map Seat.surcharge).sum := by
  simpa using foldl_surcharge 0 seats

/-- Removing a passenger never lengthens the list. -/
lemma removeAtIdx_length_le (l : List Passenger) (i : Nat) :
    (removeAtIdx l i).length ≤ l.length := by
  calc (removeAtIdx l i).length
      = (l.enum.filter (fun pi => pi.1 ≠ i)).length := by
        simp [removeAtIdx]
    _ ≤ l.enum.length := List.length_filter_le _ _
    _ = l.length := List.enum_length

/-- Every interaction keeps a passenger list of at most nine entries. -/
lemma passengers_le_nine_applyEvent (s : BookingState) (e : BookingEvent)
    (h : s.passengers.length ≤ 9) :
    (applyEvent s e).passengers.length ≤ 9 := by
  cases e with
  | add =>
      simp only [applyEvent, addPassenger]
      split
      · exact h
      · rename_i hlt
        simp only [List.length_append, List.length_cons, List.length_nil]
        omega
  | remove i =>
      simp only [applyEvent, removePassenger]
      split
      · exact h
      · exact le_trans (removeAtIdx_length_le s.passengers i) h
  | selectSeats seats => exact h
  | change i f v =>
      simp only [applyEvent, handlePassengerChange]
      cases s.passengers.get? i with
      | none => exact h
      | some p => simpa [List.length_set] using h

lemma passengers_le_nine_applyEvents (evs : List BookingEvent) :
    ∀ s : BookingState, s.passengers.length ≤ 9 →
      (applyEvents s evs).passengers.length ≤ 9 := by
  induction evs with
  | nil => intro s h; exact h
  | cons e evs ih =>
      intro s h
      exact ih (applyEvent s e) (passengers_le_nine_applyEvent s e h)

/-! ## Claims -/

/-- Claim C1: the fare quoted at hold time is frozen.  The booking page's
locked per-passenger price is set once and no user interaction recomputes it,
and the amount submitted to `POST /payments/` is exactly the `total_fare`
returned by the hold, so a booking that reaches Confirmed pays precisely the
total quoted at hold time. -/
theorem C1_fare_frozen_at_hold (s : BookingState) (evs : List BookingEvent)
    (b : HeldBooking) (m : String) :
    (applyEvents s evs).lockedPrice = s.lockedPrice ∧
    (mkPaymentPayload b m).amount = b.total_fare :=
  ⟨lockedPrice_applyEvents evs s, rfl⟩

/-- Claim C2: with `n` passengers, per-passenger fare `p` and one selected
seat per passenger with surcharges `s₁ … sₙ`, the computed total equals
`n · p + (s₁ + ⋯ + sₙ)`, with no other term. -/
theorem C2_total_is_fare_times_count_plus_surcharges
    (s : BookingState) (seats : List Seat)
    (_h : seats.length = s.passengers.length) :
    totalPrice (handleSeatSelect s seats)
      = (s.passengers.length : ℚ) * tierPrice s
        + (seats.map Seat.surcharge).sum := by
  simp only [totalPrice, baseTotalPrice, handleSeatSelect, tierPrice,
    seatSurchargeTotal_eq_sum]
  ring

/-- Witness for C2 at a concrete state: two passengers, seats with
surcharges 500 and 0. -/
def sampleStateC2 : BookingState := ⟨5000, [newPassenger, newPassenger], [], 0, ""⟩

def sampleSeatsC2 : List Seat := [⟨1, "1A", "Window", 500⟩, ⟨2, "1B", "Middle", 0⟩]

theorem C2_total_witness :
    sampleSeatsC2.length = sampleStateC2.passengers.length ∧
    totalPrice (handleSeatSelect sampleStateC2 sampleSeatsC2)
      = (sampleStateC2.passengers.length : ℚ) * tierPrice sampleStateC2
        + (sampleSeatsC2.map Seat.surcharge).sum :=
  ⟨by decide,
   C2_total_is_fare_times_count_plus_surcharges sampleStateC2 sampleSeatsC2 (by decide)⟩

/-- Claim C3: the cabin-class multipliers of the booking page are exactly
1.0 for Economy, 1.2 for EconomyFlex, 1.8 for Business and 2.5 for First,
and the tier price is the base price times that factor. -/
theorem C3_class_factor_table (b : ℚ) :
    computedTierPrice b "ECONOMY" = b * 1 ∧
    computedTierPrice b "ECONOMY_FLEX" = b * 1.2 ∧
    computedTierPrice b "BUSINESS" = b * 1.8 ∧
    computedTierPrice b "FIRST" = b * 2.5 := by
  have h1 : multipliers.lookup "ECONOMY" = some 1.0 := by
    simp [multipliers, List.lookup]
  have h2 : multipliers.lookup "ECONOMY_FLEX" = some 1.2 := by
    simp [multipliers, List.lookup]
  have h3 : multipliers.lookup "BUSINESS" = some 1.8 := by
    simp [multipliers, List.lookup]
  have h4 : multipliers.lookup "FIRST" = some 2.5 := by
    simp [multipliers, List.lookup]
  refine ⟨?_, ?_, ?_, ?_⟩
  · simp only [computedTierPrice, h1, Option.getD_some]
    norm_num
  · simp [computedTierPrice, h2]
  · simp [computedTierPrice, h3]
  · simp [computedTierPrice, h4]

/-- Counterexample to claim C4 as stated: the initial passenger count is
taken from the URL without clamping, so supplying `passengers=10` yields a
reachable state of the booking flow whose passenger list has ten entries. -/
theorem C4_counterexample :
    9 < (initState 5000 0 "ECONOMY" 10).passengers.length := by decide

/-- Claim C4, amended: adding a passenger when nine are present is refused
with the error 'Maximum 9 passengers allowed per booking' and leaves the
list unchanged, and when the initial passenger count supplied in the URL is
at most nine, no reachable state of the booking flow exceeds nine
passengers; an unclamped initial count above nine, however, is carried into
the initial state as is. -/
theorem C4_amended_max_nine (u bp : ℚ) (t : String) (n : Nat)
    (evs : List BookingEvent) (s : BookingState)
    (hn : n ≤ 9) (hs : 9 ≤ s.passengers.length) :
    (applyEvents (initState u bp t n) evs).passengers.length ≤ 9 ∧
    (addPassenger s).passengers = s.passengers ∧
    (addPassenger s).error = "Maximum 9 passengers allowed per booking" := by
  refine ⟨?_, ?_, ?_⟩
  · apply passengers_le_nine_applyEvents
    simpa [initState, initPassengers] using hn
  · rw [addPassenger, if_pos hs]
  · rw [addPassenger, if_pos hs]

theorem C4_amended_max_nine_witness :
    (applyEvents (initState 5000 0 "ECONOMY" 9) [.add]).passengers.length ≤ 9 ∧
    (addPassenger (initState 5000 0 "ECONOMY" 9)).passengers
      = (initState 5000 0 "ECONOMY" 9).passengers ∧
    (addPassenger (initState 5000 0 "ECONOMY" 9)).error
      = "Maximum 9 passengers allowed per booking" :=
  C4_amended_max_nine 5000 0 "ECONOMY" 9 [.add] (initState 5000 0 "ECONOMY" 9)
    (by decide) (by decide)

/-- Claim C5: for a positive base fare the pricing-engine fare is at least
the base fare and at most ten times the base fare, whatever the factor
values are. -/
theorem C5_fare_floor_and_cap (b fi ft fd fc : ℚ) (hb : 0 < b) :
    b ≤ pricingEngineFare b fi ft fd fc ∧
    pricingEngineFare b fi ft fd fc ≤ 10 * b := by
  constructor
  · exact le_max_right _ _
  · exact max_le (min_le_right _ _) (by linarith)

theorem C5_fare_floor_and_cap_witness :
    (5000 : ℚ) ≤ pricingEngineFare 5000 1 1 1 1 ∧
    pricingEngineFare 5000 1 1 1 1 ≤ 10 * 5000 :=
  C5_fare_floor_and_cap 5000 1 1 1 1 (by norm_num)

/-- Claim C7: the client-side cancellation update sets the status of every
booking carrying the cancelled PNR to Cancelled while retaining its
`paid_amount`, `total_fare`, `pnr`, `booking_reference` and tickets, and
leaves every booking with a different PNR completely unchanged. -/
theorem C7_cancel_frame (pnr : String) (bookings : List MyBooking) :
    List.Forall₂ (fun b b' =>
      b'.pnr = b.pnr ∧ b'.paid_amount = b.paid_amount ∧
      b'.total_fare = b.total_fare ∧
      b'.booking_reference = b.booking_reference ∧
      b'.tickets = b.tickets ∧
      (b.pnr = pnr → b'.status = "Cancelled") ∧
      (b.pnr ≠ pnr → b' = b))
      bookings (cancelBookingUpdate pnr bookings) := by
  induction bookings with
  | nil => simp [cancelBookingUpdate]
  | cons b bs ih =>
      simp only [cancelBookingUpdate, List.map_cons]
      refine List.Forall₂.cons ?_ ih
      by_cases h : b.pnr = pnr <;> simp [h]

/-- Counterexample to claim C8 as stated: the home search form offers the
tier ECONOMY_FLEX but the flight-results page has no selectable class
option with that value. -/
theorem C8_counterexample :
    travelClassOptions.contains "ECONOMY_FLEX" = true ∧
    (SEAT_CLASSES.map SeatClassOption.value).contains "ECONOMY_FLEX" = false := by
  decide

/-- Claim C8, amended: every class selectable on the flight-results page
(ECONOMY, BUSINESS, FIRST) is also offered by the home search form, but the
converse fails: the form's ECONOMY_FLEX option has no corresponding
selectable class on the results page. -/
theorem C8_amended_classes :
    ((SEAT_CLASSES.map SeatClassOption.value).all
      (fun t => travelClassOptions.contains t)) = true ∧
    travelClassOptions.contains "ECONOMY_FLEX" = true ∧
    ((SEAT_CLASSES.map SeatClassOption.value).contains "ECONOMY_FLEX") = false := by
  decide

/-- Claim C9: whenever adding or removing a passenger actually changes the
passenger list, the seat selection is reset to empty and the accumulated
surcharge to zero, and the step-2 validation passes only when exactly one
seat is selected per passenger. -/
theorem C9_seat_reset_on_passenger_change (s : BookingState) (i : Nat) :
    (s.passengers.length < 9 →
      (addPassenger s).selectedSeats = [] ∧ (addPassenger s).seatSurcharge = 0) ∧
    (1 < s.passengers.length →
      (removePassenger s i).selectedSeats = [] ∧
      (removePassenger s i).seatSurcharge = 0) ∧
    (validateStep2 s = true → s.selectedSeats.length = s.passengers.length) := by
  refine ⟨fun h => ?_, fun h => ?_, fun h => ?_⟩
  · rw [addPassenger, if_neg (by omega)]
    exact ⟨rfl, rfl⟩
  · rw [removePassenger, if_neg (by omega)]
    exact ⟨rfl, rfl⟩
  · simpa [validateStep2] using h

/-- Two flights with the same Economy price; the one with the larger id
comes first in the search response. -/
def flightIdTwo : FlightSummary :=
  ⟨2, "IndiGo", 0, 7200000, [("ECONOMY", 100)], 0, 0, 0⟩

def flightIdOne : FlightSummary :=
  ⟨1, "IndiGo", 0, 7200000, [("ECONOMY", 100)], 0, 0, 0⟩

/-- Counterexample to claim C6 as stated: sorting by price keeps the two
equal-priced flights in their input order `[id 2, id 1]`, which is not
ascending id order, so the id is not a secondary sort key. -/
theorem C6_counterexample :
    (filteredFlights [flightIdTwo, flightIdOne] "all" "price" []).map
        FlightSummary.id = [2, 1] ∧
    getFlightPrice flightIdTwo "ECONOMY" = getFlightPrice flightIdOne "ECONOMY" ∧
    flightIdOne.id < flightIdTwo.id := by
  decide

/-- Claim C6, amended: the result ordering is sorted on the primary key and
stable, so two flights that compare equal on the primary key appear in
their original input order (the comparator never consults the flight id);
ascending id order is not guaranteed. -/
theorem C6_amended_sort_stable (sortBy filterAirline : String)
    (classes : List (Nat × String)) (flights : List FlightSummary)
    (a b : FlightSummary)
    (hab : flightLE sortBy classes a b)
    (hsub : List.Sublist [a, b] flights)
    (hpa : airlineFilter filterAirline a = true)
    (hpb : airlineFilter filterAirline b = true) :
    List.Sublist [a, b] (filteredFlights flights filterAirline sortBy classes) ∧
    (filteredFlights flights filterAirline sortBy classes).Sorted
      (flightLE sortBy classes) := by
  constructor
  · apply List.pair_sublist_insertionSort hab
    have hf := hsub.filter (airlineFilter filterAirline)
    rwa [List.filter_cons_of_pos hpa, List.filter_cons_of_pos hpb,
      List.filter_nil] at hf
  · exact List.sorted_insertionSort _ _

theorem C6_amended_sort_stable_witness :
    List.Sublist [flightIdTwo, flightIdOne]
      (filteredFlights [flightIdTwo, flightIdOne] "all" "price" []) ∧
    (filteredFlights [flightIdTwo, flightIdOne] "all" "price" []).Sorted
      (flightLE "price" []) :=
  C6_amended_sort_stable "price" "all" [] [flightIdTwo, flightIdOne]
    flightIdTwo flightIdOne (by decide) (List.Sublist.refl _) (by decide) (by decide)

def sampleStateC9 : BookingState :=
  ⟨5000, [newPassenger, newPassenger], sampleSeatsC2, 500, ""⟩

theorem C9_seat_reset_witness :
    ((addPassenger sampleStateC9).selectedSeats = [] ∧
      (addPassenger sampleStateC9).seatSurcharge = 0) ∧
    ((removePassenger sampleStateC9 0).selectedSeats = [] ∧
      (removePassenger sampleStateC9 0).seatSurcharge = 0) ∧
    sampleStateC9.selectedSeats.length = sampleStateC9.passengers.length :=
  ⟨(C9_seat_reset_on_passenger_change sampleStateC9 0).1 (by decide),
   (C9_seat_reset_on_passenger_change sampleStateC9 0).2.1 (by decide),
   (C9_seat_reset_on_passenger_change sampleStateC9 0).2.2 (by decide)⟩

/-! ### PNR-lookup normalization lemmas -/

lemma mem_of_lookup_eq_some {l : List (Char × Char)} {k v : Char}
    (h : l.lookup k = some v) : (k, v) ∈ l := by
  induction l with
  | nil => simp [List.lookup] at h
  | cons p t ih =>
      obtain ⟨a, b⟩ := p
      rw [List.lookup] at h
      split at h
      · rename_i hk
        cases h
        have : k = a := by simpa using hk
        subst this
        exact List.mem_cons_self _ _
      · exact List.mem_cons_of_mem _ (ih h)

lemma upperPairs_not_whitespace :
    ∀ p ∈ upperPairs, p.1.isWhitespace = false ∧ p.2.isWhitespace = false := by
  decide

lemma upperPairs_lookup_snd :
    ∀ p ∈ upperPairs, upperPairs.lookup p.2 = none := by decide

lemma upperPairs_upper_fst :
    ∀ p ∈ upperPairs, jsToUpperChar p.1 = p.2 := by decide

lemma isWhitespace_jsToUpperChar (c : Char) :
    (jsToUpperChar c).isWhitespace = c.isWhitespace := by
  unfold jsToUpperChar
  cases h : upperPairs.lookup c with
  | none => rfl
  | some u =>
      have hm := upperPairs_not_whitespace _ (mem_of_lookup_eq_some h)
      simp only [Option.getD_some]
      rw [hm.1, hm.2]

lemma isWhitespace_jsToLowerChar (c : Char) :
    (jsToLowerChar c).isWhitespace = c.isWhitespace := by
  unfold jsToLowerChar
  cases h : (upperPairs.map (fun p => (p.2, p.1))).lookup c with
  | none => rfl
  | some v =>
      obtain ⟨q, hq, he⟩ := List.mem_map.mp (mem_of_lookup_eq_some h)
      obtain ⟨h2, h1⟩ := Prod.mk.injEq .. ▸ he
      have hw := upperPairs_not_whitespace q hq
      simp only [Option.getD_some]
      rw [← h1, ← h2, hw.1, hw.2]

lemma jsToUpperChar_jsToUpperChar (c : Char) :
    jsToUpperChar (jsToUpperChar c) = jsToUpperChar c := by
  cases h : upperPairs.lookup c with
  | none => simp [jsToUpperChar, h]
  | some u =>
      have hnone := upperPairs_lookup_snd _ (mem_of_lookup_eq_some h)
      simp [jsToUpperChar, h, hnone]

lemma jsToUpperChar_jsToLowerChar (c : Char) :
    jsToUpperChar (jsToLowerChar c) = jsToUpperChar c := by
  unfold jsToLowerChar
  cases h : (upperPairs.map (fun p => (p.2, p.1))).lookup c with
  | none => rfl
  | some v =>
      obtain ⟨q, hq, he⟩ := List.mem_map.mp (mem_of_lookup_eq_some h)
      obtain ⟨h2, h1⟩ := Prod.mk.injEq .. ▸ he
      have hup := upperPairs_upper_fst q hq
      have hnone := upperPairs_lookup_snd q hq
      simp only [Option.getD_some]
      rw [← h1, ← h2, hup]
      simp [jsToUpperChar, hnone]

lemma jsTrim_map (f : Char → Char)
    (hf : ∀ c, (f c).isWhitespace = c.isWhitespace) (l : List Char) :
    jsTrim (l.map f) = (jsTrim l).map f := by
  have hcomp : (Char.isWhitespace ∘ f) = Char.isWhitespace := funext hf
  unfold jsTrim
  rw [List.dropWhile_map, hcomp, ← List.map_reverse, List.dropWhile_map, hcomp,
    ← List.map_reverse]

lemma pnrLookupKey_map (f : Char → Char)
    (hws : ∀ c, (f c).isWhitespace = c.isWhitespace)
    (hup : ∀ c, jsToUpperChar (f c) = jsToUpperChar c) (l : List Char) :
    pnrLookupKey (l.map f) = pnrLookupKey l := by
  unfold pnrLookupKey
  rw [jsTrim_map f hws]
  by_cases h : jsTrim l = []
  · simp [h]
  · rw [if_neg (by simp [h]), if_neg h]
    have hfun : (jsToUpperChar ∘ f) = jsToUpperChar := funext hup
    rw [jsToUpper, jsToUpper, List.map_map, hfun]

lemma jsTrim_append_left {ws t : List Char}
    (h : ∀ c ∈ ws, c.isWhitespace = true) :
    jsTrim (ws ++ t) = jsTrim t := by
  have hnil : ws.dropWhile Char.isWhitespace = [] :=
    List.dropWhile_eq_nil_iff.mpr h
  unfold jsTrim
  rw [List.dropWhile_append, hnil]
  simp

lemma jsTrim_append_right {t ws : List Char}
    (h : ∀ c ∈ ws, c.isWhitespace = true) :
    jsTrim (t ++ ws) = jsTrim t := by
  have hwnil : ws.dropWhile Char.isWhitespace = [] :=
    List.dropWhile_eq_nil_iff.mpr h
  unfold jsTrim
  rw [List.dropWhile_append]
  by_cases hnil : (t.dropWhile Char.isWhitespace).isEmpty = true
  · rw [if_pos hnil, hwnil, List.isEmpty_iff.mp hnil]
  · rw [if_neg hnil, List.reverse_append, List.dropWhile_append]
    have hwrev : ws.reverse.dropWhile Char.isWhitespace = [] :=
      List.dropWhile_eq_nil_iff.mpr
        (fun c hc => h c (List.mem_reverse.mp hc))
    rw [hwrev]
    simp

/-- Claim C10: the public PNR-status lookup normalizes its input: when the
trimmed input is non-empty the request key is exactly
`input.trim().toUpperCase()`, and the key — hence the lookup result — is
invariant under surrounding whitespace and under the letter case of the
entered PNR. -/
theorem C10_pnr_lookup_normalized (s ws1 ws2 : List Char)
    (h1 : ∀ c ∈ ws1, c.isWhitespace = true)
    (h2 : ∀ c ∈ ws2, c.isWhitespace = true) :
    (jsTrim s ≠ [] → pnrLookupKey s = some (jsToUpper (jsTrim s))) ∧
    pnrLookupKey (ws1 ++ s ++ ws2) = pnrLookupKey s ∧
    pnrLookupKey (s.map jsToLowerChar) = pnrLookupKey s ∧
    pnrLookupKey (s.map jsToUpperChar) = pnrLookupKey s := by
  refine ⟨fun h => ?_, ?_, ?_, ?_⟩
  · rw [pnrLookupKey, if_neg h]
  · have heq : jsTrim (ws1 ++ s ++ ws2) = jsTrim s := by
      calc jsTrim (ws1 ++ s ++ ws2) = jsTrim (ws1 ++ (s ++ ws2)) := by
            rw [List.append_assoc]
        _ = jsTrim (s ++ ws2) := jsTrim_append_left h1
        _ = jsTrim s := jsTrim_append_right h2
    rw [pnrLookupKey, pnrLookupKey, heq]
  · exact pnrLookupKey_map _ isWhitespace_jsToLowerChar jsToUpperChar_jsToLowerChar s
  · exact pnrLookupKey_map _ isWhitespace_jsToUpperChar jsToUpperChar_jsToUpperChar s

theorem C10_pnr_lookup_normalized_witness :
    (jsTrim ['a', 'b', '1'] ≠ [] →
      pnrLookupKey ['a', 'b', '1'] = some (jsToUpper (jsTrim ['a', 'b', '1']))) ∧
    pnrLookupKey ([' '] ++ ['a', 'b', '1'] ++ ['\t'])
      = pnrLookupKey ['a', 'b', '1'] ∧
    pnrLookupKey (['a', 'b', '1'].map jsToLowerChar)
      = pnrLookupKey ['a', 'b', '1'] ∧
    pnrLookupKey (['a', 'b', '1'].map jsToUpperChar)
      = pnrLookupKey ['a', 'b', '1'] :=
  C10_pnr_lookup_normalized ['a', 'b', '1'] [' '] ['\t']
    (by decide) (by decide)

end GY
